import Mathlib

/-!
Shallow embedding of the AQUAMIND control decision and diagnostic engine
(repository lcf9811/AQUAMIND, directory Aquamind/Agent), over the rational
numbers as the model of Python floats.  Each definition is translated from
the named Python function; fields that no claim touches and that depend on
wall-clock time (timestamp), transcendental functions (the first-order
kinetics removal-rate estimate, which calls math.exp) or string formatting
of numbers (recommendation text lists) are omitted and noted in the doc
comment of the corresponding definition.  Knowledge-base lookups fall back
in the source to hard-coded defaults that coincide with the values stored
in Knowledge/knowledge_base.py; the embedding uses those shared values.
-/

namespace Aquamind

/-- Rounding of a rational to the nearest integer with ties going to the
even integer, the tie-breaking rule of Python round.  Non-tie inputs use
the ordinary nearest-integer rounding. -/
def roundHalfEven (q : ℚ) : ℤ :=
  if q - ⌊q⌋ = 1 / 2 then (if 2 ∣ ⌊q⌋ then ⌊q⌋ else ⌊q⌋ + 1) else round q

/-- Model of the Python builtin round(x, 2): scale by 100, round half to
even, scale back. -/
def pyRound2 (q : ℚ) : ℚ := (roundHalfEven (q * 100) : ℚ) / 100

/-- The rounded value differs from the input by at most one half. -/
theorem abs_sub_roundHalfEven (q : ℚ) : |q - (roundHalfEven q : ℚ)| ≤ 1 / 2 := by
  unfold roundHalfEven
  split_ifs with h h2
  · rw [abs_le]
    constructor <;> nlinarith [Int.floor_le q, Int.lt_floor_add_one q]
  · rw [abs_le]
    push_cast
    constructor <;> nlinarith [Int.floor_le q, Int.lt_floor_add_one q]
  · exact abs_sub_round q

/-- Rounding to two decimals keeps a value of the unit interval inside the
unit interval. -/
theorem pyRound2_mem_unit {q : ℚ} (h0 : 0 ≤ q) (h1 : q ≤ 1) :
    0 ≤ pyRound2 q ∧ pyRound2 q ≤ 1 := by
  have hb := abs_sub_roundHalfEven (q * 100)
  rw [abs_le] at hb
  have hr0 : (0 : ℤ) ≤ roundHalfEven (q * 100) := by
    have h : (-1 : ℚ) < (roundHalfEven (q * 100) : ℚ) := by linarith
    have h2 : (-1 : ℤ) < roundHalfEven (q * 100) := by exact_mod_cast h
    omega
  have hr1 : (roundHalfEven (q * 100) : ℤ) ≤ 100 := by
    have h : (roundHalfEven (q * 100) : ℚ) < 101 := by linarith
    have h2 : roundHalfEven (q * 100) < (101 : ℤ) := by exact_mod_cast h
    omega
  constructor
  · unfold pyRound2
    positivity
  · unfold pyRound2
    rw [div_le_one (by norm_num)]
    exact_mod_cast hr1

/-- Embedding of FeedbackAgent.calculate_effectiveness
(Aquamind/Agent/FeedbackAgent.py, lines 221 to 229): a guard branch for
expected equal to zero, otherwise the relative error scaled by the
tolerance, clamped below at zero and rounded to two decimals.  Division of
rationals is total, so the guarded division needs no exceptional case in
the embedding. -/
def calculate_effectiveness (expected actual : ℚ) (tolerance : ℚ := 0.2) : ℚ :=
  if expected = 0 then (if actual = 0 then 1 else 0)
  else
    pyRound2 (max 0 (1 - (|expected - actual| / expected) / tolerance))

/-- Trend multiplier table of TurntableAgent._determine_control_params
(Aquamind/Agent/TurntableAgent.py, line 215): the Python dict
trend_factors with default 1.0 for an unknown trend key.  The keys are the
Chinese words for rising, stable and falling. -/
def trend_factor (trend : String) : ℚ :=
  if trend = "上升" then 1.15 else if trend = "稳定" then 1.0
  else if trend = "下降" then 0.90 else 1.0

/-- Result dict of TurntableAgent._determine_control_params. -/
structure TurntableControlParams where
  frequency : ℚ
  reactors : ℕ
  standby : Bool
  reason : String
  deriving Repr, DecidableEq

/-- Embedding of TurntableAgent._determine_control_params
(Aquamind/Agent/TurntableAgent.py, lines 194 to 229).  The base frequency
per toxicity level comes from the expert rule turntable_control whose
stored values equal the in-code fallback defaults 10, 45 and 25 Hz.  The
branch order of the source is kept: the low branch fires when the level
string is the Chinese word for low OR the numeric toxicity is below 1.5,
before the high branch is ever examined. -/
def determine_control_params (toxicity : ℚ) (toxicity_level : String)
    (trend : String) : TurntableControlParams :=
  let base :
      ℚ × ℕ × String :=
    if toxicity_level = "低" ∨ toxicity < 1.5 then
      (10.0, 2, "低毒性运行，节能模式")
    else if toxicity_level = "高" ∨ toxicity > 3.0 then
      (45.0, 3, "高毒性运行，全力处理")
    else
      (25.0, 2, "中毒性运行，标准模式")
  let factor := trend_factor trend
  let adjusted_freq := min 50.0 (max 5.0 (base.1 * factor))
  let reason :=
    if trend = "上升" then base.2.2 ++ "，毒性上升趋势，提高频率"
    else if trend = "下降" then base.2.2 ++ "，毒性下降趋势，适当降低频率"
    else base.2.2
  { frequency := adjusted_freq
    reactors := base.2.1
    standby := base.2.1 = 3
    reason := reason }

/-- Output dataclass TurntableControlOutput
(Aquamind/Agent/TurntableAgent.py, lines 32 to 47).  The fields
expected_removal_rate (computed with math.exp) and timestamp
(wall clock) are omitted; no claim touches them. -/
structure TurntableControlOutput where
  frequency_1 : ℚ
  frequency_2 : ℚ
  frequency_3 : ℚ
  rpm_1 : ℚ
  rpm_2 : ℚ
  rpm_3 : ℚ
  active_reactors : ℕ
  standby_triggered : Bool
  decision_reason : String
  confidence : ℚ
  deriving Repr, DecidableEq

/-- Hz to rpm conversion of TurntableAgent._hz_to_rpm with the
rpm_per_hz equipment parameter 30. -/
def hz_to_rpm (frequency : ℚ) : ℚ := frequency * 30.0

namespace TurntableAgent

/-- Embedding of TurntableAgent.generate_control_output
(Aquamind/Agent/TurntableAgent.py, lines 265 to 314): frequencies one and
two equal the adjusted frequency, frequency three equals it only when
standby is triggered, rpm is frequency times 30, and the confidence is
0.85 lowered to 0.80 at the high level and by another 0.05 on a rising
trend.  The expected_removal_rate and timestamp fields are omitted as
noted on the output structure. -/
def generate_control_output (toxicity : ℚ) (toxicity_level : String)
    (trend : String) : TurntableControlOutput :=
  let params := determine_control_params toxicity toxicity_level trend
  let freq_1 := params.frequency
  let freq_2 := params.frequency
  let freq_3 := if params.standby then params.frequency else 0.0
  let confidence0 : ℚ := if toxicity_level = "高" then 0.80 else 0.85
  let confidence := if trend = "上升" then confidence0 - 0.05 else confidence0
  { frequency_1 := freq_1
    frequency_2 := freq_2
    frequency_3 := freq_3
    rpm_1 := hz_to_rpm freq_1
    rpm_2 := hz_to_rpm freq_2
    rpm_3 := hz_to_rpm freq_3
    active_reactors := params.reactors
    standby_triggered := params.standby
    decision_reason := params.reason
    confidence := confidence }

end TurntableAgent

/-- Equipment parameter tmp_warning of the mbr_system sheet, equal to the
in-code fallback default (Aquamind/Agent/MBRAgent.py, line 139). -/
def tmp_warning : ℚ := 30.0

/-- Equipment parameter tmp_alarm of the mbr_system sheet, equal to the
in-code fallback default (Aquamind/Agent/MBRAgent.py, line 140). -/
def tmp_alarm : ℚ := 40.0

/-- Equipment parameter design_flux of the mbr_system sheet, equal to the
in-code fallback default (Aquamind/Agent/MBRAgent.py, line 138). -/
def design_flux : ℚ := 20.0

/-- Result dict of MBRAgent._assess_fouling_status. -/
structure FoulingAssessment where
  status : String
  alarm_level : ℕ
  reason : String
  action : String
  deriving Repr, DecidableEq

/-- Embedding of MBRAgent._assess_fouling_status
(Aquamind/Agent/MBRAgent.py, lines 179 to 211).  The source takes the
current flux as a second argument but never reads it; the parameter is
kept for signature fidelity.  Tier order as in the source: alarm at
tmp at least 40, warning at tmp at least 30, attention at tmp at least
0.8 times the warning threshold (24 with defaults), otherwise normal. -/
def assess_fouling_status (tmp : ℚ) (_flux : ℚ) : FoulingAssessment :=
  if tmp ≥ tmp_alarm then
    { status := "critical", alarm_level := 3
      reason := "TMP严重超标，需要立即化学清洗", action := "chemical_cleaning" }
  else if tmp ≥ tmp_warning then
    { status := "warning", alarm_level := 2
      reason := "TMP偏高，存在膜污染，需要增强反洗", action := "enhanced_backwash" }
  else if tmp ≥ tmp_warning * 0.8 then
    { status := "attention", alarm_level := 1
      reason := "TMP接近预警值，需要关注", action := "increase_aeration" }
  else
    { status := "normal", alarm_level := 0
      reason := "膜运行正常", action := "maintain" }

/-- Result dict of MBRAgent._calculate_control_params. -/
structure MBRControlParams where
  aeration_rate : ℚ
  flux_setpoint : ℚ
  backwash : Bool
  chemical_clean : Bool
  deriving Repr, DecidableEq

/-- Embedding of MBRAgent._calculate_control_params
(Aquamind/Agent/MBRAgent.py, lines 213 to 248): per fouling tier, the
aeration multiplier (1.5, 1.2, 1.1 or 1), the flux setpoint relative to
the design flux (0, 0.75, 0.9 or 1 times it) and the backwash and
chemical cleaning flags. -/
def calculate_control_params (tmp current_aeration current_flux : ℚ) :
    MBRControlParams :=
  let assessment := assess_fouling_status tmp current_flux
  if assessment.status = "critical" then
    { aeration_rate := current_aeration * 1.5, flux_setpoint := 0.0
      backwash := true, chemical_clean := true }
  else if assessment.status = "warning" then
    { aeration_rate := current_aeration * 1.2, flux_setpoint := design_flux * 0.75
      backwash := true, chemical_clean := false }
  else if assessment.status = "attention" then
    { aeration_rate := current_aeration * 1.1, flux_setpoint := design_flux * 0.9
      backwash := false, chemical_clean := false }
  else
    { aeration_rate := current_aeration, flux_setpoint := design_flux
      backwash := false, chemical_clean := false }

/-- Output dataclass MBRControlOutput (Aquamind/Agent/MBRAgent.py,
lines 31 to 42).  The recommendations list (format strings over the
computed setpoints) and the timestamp are omitted; no claim touches
them. -/
structure MBRControlOutput where
  aeration_rate : ℚ
  flux_setpoint : ℚ
  backwash_needed : Bool
  chemical_cleaning_needed : Bool
  alarm_level : ℕ
  fouling_status : String
  decision_reason : String
  confidence : ℚ
  deriving Repr, DecidableEq

namespace MBRAgent

/-- Embedding of MBRAgent.generate_control_output
(Aquamind/Agent/MBRAgent.py, lines 287 to 352): wires the fouling
assessment and the control parameters into the output record; confidence
is 0.85, raised to 0.90 on the critical tier. -/
def generate_control_output (current_tmp current_flux current_aeration : ℚ) :
    MBRControlOutput :=
  let assessment := assess_fouling_status current_tmp current_flux
  let params := calculate_control_params current_tmp current_aeration current_flux
  let confidence : ℚ := if assessment.status = "critical" then 0.90 else 0.85
  { aeration_rate := params.aeration_rate
    flux_setpoint := params.flux_setpoint
    backwash_needed := params.backwash
    chemical_cleaning_needed := params.chemical_clean
    alarm_level := assessment.alarm_level
    fouling_status := assessment.status
    decision_reason := assessment.reason
    confidence := confidence }

end MBRAgent

/-- Result dict of RegenerationAgent._assess_regeneration_need. -/
structure RegenAssessment where
  need_regeneration : Bool
  mode : String
  reason : String
  urgency : String
  deriving Repr, DecidableEq

/-- Embedding of RegenerationAgent._assess_regeneration_need
(Aquamind/Agent/RegenerationAgent.py, lines 168 to 212), an elif chain
over the thresholds 60 and 40 (intensive), 80 and 60 (normal), 720 hours
(periodic normal) and 0.8 times 720 hours (preventive energy saving).
The final else of the source leaves the initial mode value normal in
place; the standby wording only appears at the generate_control_output
level below. -/
def assess_regeneration_need (adsorption_efficiency removal_rate
    operating_hours : ℚ) : RegenAssessment :=
  if adsorption_efficiency < 60 ∨ removal_rate < 40 then
    { need_regeneration := true, mode := "intensive"
      reason := "活性炭严重饱和，需要强化再生", urgency := "high" }
  else if adsorption_efficiency < 80 ∨ removal_rate < 60 then
    { need_regeneration := true, mode := "normal"
      reason := "吸附能力下降，需要常规再生", urgency := "medium" }
  else if operating_hours > 720 then
    { need_regeneration := true, mode := "normal"
      reason := "已达到周期性再生时间", urgency := "medium" }
  else if operating_hours > 720 * 0.8 then
    { need_regeneration := true, mode := "energy_saving"
      reason := "预防性再生，节能模式", urgency := "low" }
  else
    { need_regeneration := false, mode := "normal"
      reason := "活性炭状态良好，无需再生", urgency := "low" }

/-- Mode parameter triple (temperature, feed rate, duration) of
RegenerationAgent._get_mode_parameters (Aquamind/Agent/RegenerationAgent.py,
lines 214 to 236); the expert rule regeneration_control stores the same
temperature and feed values as the in-code fallback defaults.  An unknown
mode falls back to the normal parameters as in the source. -/
def get_mode_parameters (mode : String) : ℚ × ℚ × ℚ :=
  if mode = "normal" then (800.0, 30.0, 8.0)
  else if mode = "intensive" then (850.0, 40.0, 6.0)
  else if mode = "energy_saving" then (750.0, 25.0, 10.0)
  else (800.0, 30.0, 8.0)

/-- Output dataclass RegenerationControlOutput
(Aquamind/Agent/RegenerationAgent.py).  The recommendations list and the
timestamp are omitted; no claim touches them. -/
structure RegenerationControlOutput where
  regeneration_needed : Bool
  furnace_temperature : ℚ
  feed_rate : ℚ
  regeneration_mode : String
  estimated_duration : ℚ
  carbon_recovery_rate : ℚ
  decision_reason : String
  confidence : ℚ
  deriving Repr, DecidableEq

namespace RegenerationAgent

/-- Embedding of RegenerationAgent.generate_control_output
(Aquamind/Agent/RegenerationAgent.py, lines 274 to 331): when no
regeneration is needed the furnace temperature, feed rate and duration are
zeroed and the reported mode becomes standby; the carbon recovery rate is
the equipment recovery_rate 0.95 times 100; the confidence is 0.85, 0.90
at high urgency and 0.80 at low urgency. -/
def generate_control_output (adsorption_efficiency removal_rate
    operating_hours : ℚ) : RegenerationControlOutput :=
  let assessment :=
    assess_regeneration_need adsorption_efficiency removal_rate operating_hours
  let params := get_mode_parameters assessment.mode
  let confidence : ℚ :=
    if assessment.urgency = "high" then 0.90
    else if assessment.urgency = "low" then 0.80 else 0.85
  { regeneration_needed := assessment.need_regeneration
    furnace_temperature := if assessment.need_regeneration then params.1 else 0.0
    feed_rate := if assessment.need_regeneration then params.2.1 else 0.0
    regeneration_mode :=
      if assessment.need_regeneration then assessment.mode else "standby"
    estimated_duration := if assessment.need_regeneration then params.2.2 else 0.0
    carbon_recovery_rate := 0.95 * 100
    decision_reason := assessment.reason
    confidence := confidence }

end RegenerationAgent

/-- Health level enum of DiagnosticAgent (Aquamind/Agent/DiagnosticAgent.py). -/
inductive HealthLevel where
  | excellent
  | good
  | attention
  | warning
  | critical
  deriving Repr, DecidableEq

/-- Embedding of DiagnosticAgent._score_to_health_level
(Aquamind/Agent/DiagnosticAgent.py, lines 211 to 222). -/
def score_to_health_level (score : ℚ) : HealthLevel :=
  if score ≥ 90 then .excellent
  else if score ≥ 75 then .good
  else if score ≥ 60 then .attention
  else if score ≥ 40 then .warning
  else .critical

/-- Subsystem status record of DiagnosticAgent.  The issues and
recommendations string lists are omitted; no claim touches them.  As in
the source, the health level is computed from the score before the clamp
to zero is applied to the stored score. -/
structure SubsystemStatus where
  name : String
  health_level : HealthLevel
  score : ℚ
  deriving Repr, DecidableEq

/-- Embedding of DiagnosticAgent._evaluate_toxicity_subsystem
(Aquamind/Agent/DiagnosticAgent.py, lines 224 to 260): deductions 20 or 10
for low confidence, 25 or 10 for low prediction accuracy, 15 for toxicity
above 5; score clamped below at zero. -/
def evaluate_toxicity_subsystem (toxicity confidence prediction_accuracy : ℚ) :
    SubsystemStatus :=
  let score : ℚ := 100.0
    - (if confidence < 0.6 then 20 else if confidence < 0.8 then 10 else 0)
    - (if prediction_accuracy < 70 then 25
       else if prediction_accuracy < 85 then 10 else 0)
    - (if toxicity > 5.0 then 15 else 0)
  { name := "毒性预测系统", health_level := score_to_health_level score
    score := max 0 score }

/-- Embedding of DiagnosticAgent._evaluate_turntable_subsystem
(Aquamind/Agent/DiagnosticAgent.py, lines 262 to 297): deductions 30 or 15
for a low removal rate, 10 for a frequency above 45 Hz, 15 when the
standby line is active; score clamped below at zero. -/
def evaluate_turntable_subsystem (frequency removal_rate : ℚ)
    (standby_triggered : Bool) : SubsystemStatus :=
  let score : ℚ := 100.0
    - (if removal_rate < 50 then 30 else if removal_rate < 70 then 15 else 0)
    - (if frequency > 45 then 10 else 0)
    - (if standby_triggered then 15 else 0)
  { name := "转盘吸附系统", health_level := score_to_health_level score
    score := max 0 score }

/-- Embedding of DiagnosticAgent._evaluate_mbr_subsystem
(Aquamind/Agent/DiagnosticAgent.py, lines 299 to 341): strict elif chains
deduct 35, 20 or 10 for TMP above 40, 30 or 25, then 25 or 15 for flux
below 10 or 15, then 30 or 15 for a critical or warning fouling status;
score clamped below at zero. -/
def evaluate_mbr_subsystem (tmp flux : ℚ) (fouling_status : String) :
    SubsystemStatus :=
  let score : ℚ := 100.0
    - (if tmp > 40 then 35 else if tmp > 30 then 20 else if tmp > 25 then 10 else 0)
    - (if flux < 10 then 25 else if flux < 15 then 15 else 0)
    - (if fouling_status = "critical" then 30
       else if fouling_status = "warning" then 15 else 0)
  { name := "MBR膜系统", health_level := score_to_health_level score
    score := max 0 score }

/-- Embedding of DiagnosticAgent._evaluate_regeneration_subsystem
(Aquamind/Agent/DiagnosticAgent.py, lines 343 to 371): deductions 30 or 15
for a low adsorption efficiency and 10 when regeneration is needed; score
clamped below at zero. -/
def evaluate_regeneration_subsystem (adsorption_efficiency : ℚ)
    (need_regeneration : Bool) : SubsystemStatus :=
  let score : ℚ := 100.0
    - (if adsorption_efficiency < 60 then 30
       else if adsorption_efficiency < 80 then 15 else 0)
    - (if need_regeneration then 10 else 0)
  { name := "再生系统", health_level := score_to_health_level score
    score := max 0 score }

/-- Diagnostic report record of DiagnosticAgent.  The critical issue,
warning and recommendation lists and the timestamp are omitted; no claim
touches them. -/
structure DiagnosticReport where
  overall_health : HealthLevel
  overall_score : ℚ
  toxicity_status : SubsystemStatus
  turntable_status : SubsystemStatus
  mbr_status : SubsystemStatus
  regeneration_status : SubsystemStatus
  deriving Repr, DecidableEq

namespace DiagnosticAgent

/-- Embedding of DiagnosticAgent.generate_diagnostic_report
(Aquamind/Agent/DiagnosticAgent.py, lines 407 to 475): evaluates the four
subsystems and takes the overall score as the sum of the four subsystem
scores divided by four. -/
def generate_diagnostic_report (toxicity confidence prediction_accuracy
    turntable_frequency turntable_removal_rate : ℚ)
    (turntable_standby : Bool) (mbr_tmp mbr_flux : ℚ) (mbr_fouling : String)
    (carbon_efficiency : ℚ) (need_regeneration : Bool) : DiagnosticReport :=
  let toxicity_status :=
    evaluate_toxicity_subsystem toxicity confidence prediction_accuracy
  let turntable_status :=
    evaluate_turntable_subsystem turntable_frequency turntable_removal_rate
      turntable_standby
  let mbr_status := evaluate_mbr_subsystem mbr_tmp mbr_flux mbr_fouling
  let regeneration_status :=
    evaluate_regeneration_subsystem carbon_efficiency need_regeneration
  let overall_score := (toxicity_status.score + turntable_status.score
    + mbr_status.score + regeneration_status.score) / 4
  { overall_health := score_to_health_level overall_score
    overall_score := overall_score
    toxicity_status := toxicity_status
    turntable_status := turntable_status
    mbr_status := mbr_status
    regeneration_status := regeneration_status }

end DiagnosticAgent

/-- Feedback record dataclass ControlFeedback
(Aquamind/Agent/FeedbackAgent.py, lines 33 to 42); the parameters dict is
modelled as an association list from parameter name to value. -/
structure ControlFeedback where
  agent_name : String
  action_taken : String
  expected_result : String
  actual_result : String
  effectiveness : ℚ
  parameters : List (String × ℚ)
  timestamp : String
  deriving Repr, DecidableEq

/-- Learning record dataclass LearningRecord
(Aquamind/Agent/FeedbackAgent.py, lines 56 to 63). -/
structure LearningRecord where
  scenario : String
  optimal_parameters : List (String × ℚ)
  success_rate : ℚ
  sample_count : ℕ
  last_updated : String
  deriving Repr, DecidableEq

/-- Mutable state of a FeedbackAgent instance
(Aquamind/Agent/FeedbackAgent.py, lines 124 to 141): the bounded feedback
history (a deque with maxlen history_size, default 100) and the learning
record dict keyed by scenario, modelled as an association list. -/
structure FeedbackAgentState where
  history_size : ℕ
  feedback_history : List ControlFeedback
  learning_records : List (String × LearningRecord)
  deriving Repr, DecidableEq

/-- Fresh FeedbackAgent state: empty history and empty record dict, with
the default capacity 100. -/
def FeedbackAgentState.init (history_size : ℕ := 100) : FeedbackAgentState :=
  { history_size := history_size, feedback_history := [], learning_records := [] }

/-- Appending to a Python deque with maxlen: the new element goes to the
right and elements are dropped from the left until the length is at most
the bound. -/
def deque_append {α : Type} (maxlen : ℕ) (xs : List α) (x : α) : List α :=
  let ys := xs ++ [x]
  if ys.length ≤ maxlen then ys else ys.drop (ys.length - maxlen)

/-- Lookup in the learning record dict. -/
def records_lookup : List (String × LearningRecord) → String → Option LearningRecord
  | [], _ => none
  | (k, v) :: rest, key => if k = key then some v else records_lookup rest key

/-- Assignment in the learning record dict: overwrite the existing entry
for the key or append a fresh one. -/
def records_set : List (String × LearningRecord) → String → LearningRecord →
    List (String × LearningRecord)
  | [], key, v => [(key, v)]
  | (k, w) :: rest, key, v =>
    if k = key then (key, v) :: rest else (k, w) :: records_set rest key v

/-- Scenario key built in FeedbackAgent._update_learning_record
(Aquamind/Agent/FeedbackAgent.py, line 185): agent name and action joined
by an underscore. -/
def scenario_key (fb : ControlFeedback) : String :=
  fb.agent_name ++ "_" ++ fb.action_taken

/-- Embedding of FeedbackAgent._update_learning_record
(Aquamind/Agent/FeedbackAgent.py, lines 183 to 206): a missing key creates
a record seeded with the sample; an existing record gets the incremental
mean update of the success rate, the bumped sample count, and its optimal
parameters replaced exactly when the effectiveness exceeds 0.8. -/
def update_learning_record (recs : List (String × LearningRecord))
    (fb : ControlFeedback) : List (String × LearningRecord) :=
  let key := scenario_key fb
  match records_lookup recs key with
  | none =>
    records_set recs key
      { scenario := key, optimal_parameters := fb.parameters
        success_rate := fb.effectiveness, sample_count := 1
        last_updated := fb.timestamp }
  | some record =>
    let n := record.sample_count
    records_set recs key
      { record with
        success_rate := (record.success_rate * n + fb.effectiveness) / (n + 1)
        sample_count := n + 1
        last_updated := fb.timestamp
        optimal_parameters :=
          if fb.effectiveness > 0.8 then fb.parameters
          else record.optimal_parameters }

namespace FeedbackAgent

/-- Embedding of FeedbackAgent.record_feedback
(Aquamind/Agent/FeedbackAgent.py, lines 176 to 181): append the feedback
to the bounded history and update the learning record for its scenario
key. -/
def record_feedback (s : FeedbackAgentState) (fb : ControlFeedback) :
    FeedbackAgentState :=
  { s with
    feedback_history := deque_append s.history_size s.feedback_history fb
    learning_records := update_learning_record s.learning_records fb }

end FeedbackAgent

/-- Intents recognised by MainOrchestrator._identify_intent
(Aquamind/Agent/MainOrchestrator.py, lines 182 to 209). -/
inductive Intent where
  | predict_toxicity
  | control_turntable
  | control_mbr
  | check_regeneration
  | system_diagnostic
  | collect_feedback
  | full_analysis
  | general_query
  deriving Repr, DecidableEq

/-- Return dict of an LLM-backed agent run method (for instance
ToxicityAgent.run or FeedbackAgent.run): those methods wrap their body in
try and except and always return a status and suggestion pair, so they
are total from the point of view of MainOrchestrator.run. -/
structure AgentRunResult where
  status : String
  suggestion : String
  deriving Repr, DecidableEq

/-- Results dict assembled by MainOrchestrator.run
(Aquamind/Agent/MainOrchestrator.py, lines 232 to 280): one optional
entry per sub-agent, present exactly when the identified intent schedules
that sub-agent. -/
structure OrchestratorResults where
  toxicity : Option AgentRunResult
  turntable : Option TurntableControlOutput
  mbr : Option MBRControlOutput
  regeneration : Option RegenerationControlOutput
  diagnostic : Option DiagnosticReport
  feedback : Option AgentRunResult
  deriving Repr, DecidableEq

/-- Intents that schedule the toxicity sub-step (line 234 of
MainOrchestrator.py). -/
def needs_toxicity : Intent → Bool
  | .predict_toxicity | .full_analysis => true
  | _ => false

/-- Intents that schedule the turntable controller sub-step (line 243). -/
def needs_turntable : Intent → Bool
  | .control_turntable | .full_analysis => true
  | _ => false

/-- Intents that schedule the MBR controller sub-step (line 253). -/
def needs_mbr : Intent → Bool
  | .control_mbr | .full_analysis => true
  | _ => false

/-- Intents that schedule the regeneration controller sub-step (line 260). -/
def needs_regeneration : Intent → Bool
  | .check_regeneration | .full_analysis => true
  | _ => false

/-- Intents that schedule the diagnostic scorer sub-step (line 267). -/
def needs_diagnostic : Intent → Bool
  | .system_diagnostic | .full_analysis => true
  | _ => false

/-- Intents that schedule the feedback sub-step (line 272). -/
def needs_feedback : Intent → Bool
  | .collect_feedback | .full_analysis => true
  | _ => false

/-- One conditional sub-step of MainOrchestrator.run: when the intent
schedules the step, the outcome of the underlying invocation is passed
through unguarded (the source wraps none of these calls in try and
except, so a raised exception propagates); otherwise the step is skipped
and contributes no entry. -/
def step_result {α : Type} (active : Bool) (step : Except String α) :
    Except String (Option α) :=
  if active then step.map some else .ok none

namespace MainOrchestrator

/-- Embedding of MainOrchestrator.run (Aquamind/Agent/MainOrchestrator.py,
lines 211 to 289) after intent identification.  The outcome of each
sub-step invocation is an input: the LLM-backed toxicity and feedback
agents catch exceptions internally and always deliver an AgentRunResult,
while the controller and scorer invocations (generate_control_output and
generate_diagnostic_report together with their knowledge lookups) may
raise, modelled as Except values.  The source has no try and except
around any of these calls, so step failures propagate monadically and the
whole request fails. -/
def run (intent : Intent) (toxicity_step : AgentRunResult)
    (turntable_step : Except String TurntableControlOutput)
    (mbr_step : Except String MBRControlOutput)
    (regeneration_step : Except String RegenerationControlOutput)
    (diagnostic_step : Except String DiagnosticReport)
    (feedback_step : AgentRunResult) : Except String OrchestratorResults :=
  (step_result (needs_turntable intent) turntable_step).bind fun turntable_r =>
  (step_result (needs_mbr intent) mbr_step).bind fun mbr_r =>
  (step_result (needs_regeneration intent) regeneration_step).bind fun regen_r =>
  (step_result (needs_diagnostic intent) diagnostic_step).bind fun diag_r =>
  .ok
    { toxicity := if needs_toxicity intent then some toxicity_step else none
      turntable := turntable_r
      mbr := mbr_r
      regeneration := regen_r
      diagnostic := diag_r
      feedback := if needs_feedback intent then some feedback_step else none }

end MainOrchestrator

/-- Claim C4, counterexample: the claim asserts that
calculate_effectiveness stays within the declared bounds zero to one for
every pair of float inputs at the default tolerance 0.2, but at the input
pair expected equal to minus 50 and actual equal to zero the relative
error is minus one, so the function returns 6, outside the declared
bounds. -/
theorem effectiveness_bounds_counterexample :
    calculate_effectiveness (-50) 0 0.2 = 6 ∧
    ¬ calculate_effectiveness (-50) 0 0.2 ≤ 1 := by
  constructor <;>
    norm_num [calculate_effectiveness, pyRound2, roundHalfEven]

/-- Claim C4, amended: for every nonnegative expected value and every
actual value, calculate_effectiveness at the default tolerance 0.2 lies
within the declared bounds zero and one.  The restriction to nonnegative
expected values is forced by the counterexample at expected minus 50. -/
theorem effectiveness_bounds_of_nonneg (expected actual : ℚ)
    (h : 0 ≤ expected) :
    0 ≤ calculate_effectiveness expected actual 0.2 ∧
    calculate_effectiveness expected actual 0.2 ≤ 1 := by
  unfold calculate_effectiveness
  split_ifs with h0 h1
  · norm_num
  · norm_num
  · have hpos : 0 < expected := lt_of_le_of_ne h (Ne.symm h0)
    have herr : 0 ≤ |expected - actual| / expected :=
      div_nonneg (abs_nonneg _) (le_of_lt hpos)
    have hq0 : (0 : ℚ) ≤ max 0 (1 - |expected - actual| / expected / 0.2) :=
      le_max_left _ _
    have hq1 : max 0 (1 - |expected - actual| / expected / 0.2) ≤ 1 := by
      apply max_le (by norm_num)
      have : 0 ≤ |expected - actual| / expected / 0.2 := by positivity
      linarith
    exact pyRound2_mem_unit hq0 hq1

/-- Claim C4, witness: the amended bound theorem applied at the concrete
input pair 50 and 50. -/
theorem effectiveness_bounds_of_nonneg_witness :
    0 ≤ calculate_effectiveness 50 50 0.2 ∧
    calculate_effectiveness 50 50 0.2 ≤ 1 :=
  effectiveness_bounds_of_nonneg 50 50 (by norm_num)

/-- Claim C5: calculate_effectiveness decides the expected equal zero case
by an explicit branch, returning one exactly when actual is also zero
(division of rationals is total, so no division error can arise in the
embedding); otherwise it returns the clamped, tolerance-scaled relative
error rounded to two decimals; and the three concrete evaluations of the
claim hold. -/
theorem effectiveness_zero_guard_spec :
    (∀ actual tolerance : ℚ,
      calculate_effectiveness 0 actual tolerance =
        if actual = 0 then 1 else 0) ∧
    (∀ expected actual tolerance : ℚ, expected ≠ 0 →
      calculate_effectiveness expected actual tolerance =
        pyRound2 (max 0 (1 - (|expected - actual| / expected) / tolerance))) ∧
    calculate_effectiveness 50 50 0.2 = 1 ∧
    calculate_effectiveness 50 0 0.2 = 0 ∧
    calculate_effectiveness 0 0 0.2 = 1 := by
  refine ⟨fun actual tolerance => ?_, fun expected actual tolerance h => ?_,
    ?_, ?_, ?_⟩
  · simp [calculate_effectiveness]
  · simp [calculate_effectiveness, h]
  · norm_num [calculate_effectiveness, pyRound2, roundHalfEven]
  · norm_num [calculate_effectiveness, pyRound2, roundHalfEven]
  · norm_num [calculate_effectiveness]

/-- Claim C5, witness: the nonzero branch of the zero-guard theorem
applied at the concrete input expected 50, actual 0. -/
theorem effectiveness_zero_guard_spec_witness :
    calculate_effectiveness 50 0 0.2 =
      pyRound2 (max 0 (1 - (|(50 : ℚ) - 0| / 50) / 0.2)) :=
  effectiveness_zero_guard_spec.2.1 50 0 0.2 (by norm_num)

/-- Claim C1, counterexample: the claim asserts that the high toxicity
level selects base frequency 45 Hz, three active reactors and the standby
flag for every toxicity value in zero to ten, but the source tests the
low branch condition toxicity below 1.5 before ever looking at the high
level, so at toxicity 1 with level high and stable trend the controller
runs the low branch: frequency 10 Hz, two reactors, standby off. -/
theorem turntable_high_level_counterexample :
    (TurntableAgent.generate_control_output 1 "高" "稳定").frequency_1 = 10 ∧
    (TurntableAgent.generate_control_output 1 "高" "稳定").active_reactors ≠ 3 ∧
    (TurntableAgent.generate_control_output 1 "高" "稳定").standby_triggered
      = false := by
  refine ⟨?_, ?_, ?_⟩ <;>
    norm_num +decide [TurntableAgent.generate_control_output,
      determine_control_params, trend_factor]

/-- Claim C1, amended: for every toxicity value between 1.5 and 10 and
every trend, invoking the turntable controller at the high level selects
the 45 Hz base frequency (then adjusted by the trend factor and clamped
to 5 to 50 Hz), three active reactors and the standby flag, and the third
reactor frequency equals the trend-adjusted frequency.  The lower bound
1.5 on the toxicity value is forced by the counterexample at toxicity 1. -/
theorem turntable_high_level_spec (toxicity : ℚ) (trend : String)
    (h1 : 1.5 ≤ toxicity) (_h2 : toxicity ≤ 10) :
    (TurntableAgent.generate_control_output toxicity "高" trend).active_reactors
      = 3 ∧
    (TurntableAgent.generate_control_output toxicity "高" trend).standby_triggered
      = true ∧
    (TurntableAgent.generate_control_output toxicity "高" trend).frequency_1
      = min 50 (max 5 (45 * trend_factor trend)) ∧
    (TurntableAgent.generate_control_output toxicity "高" trend).frequency_3
      = (TurntableAgent.generate_control_output toxicity "高" trend).frequency_1
      := by
  have hlow : ¬((("高" : String) = "低") ∨ toxicity < 1.5) := by
    push_neg
    exact ⟨by decide, by linarith⟩
  have hhigh : (("高" : String) = "高") ∨ toxicity > 3.0 := Or.inl rfl
  refine ⟨?_, ?_, ?_, ?_⟩ <;>
    simp only [TurntableAgent.generate_control_output,
      determine_control_params, if_neg hlow, if_pos hhigh] <;>
    norm_num

/-- Claim C1, witness: the amended high-level theorem applied at the
concrete input toxicity 4 with rising trend. -/
theorem turntable_high_level_spec_witness :
    (TurntableAgent.generate_control_output 4 "高" "上升").active_reactors
      = 3 ∧
    (TurntableAgent.generate_control_output 4 "高" "上升").standby_triggered
      = true ∧
    (TurntableAgent.generate_control_output 4 "高" "上升").frequency_1
      = min 50 (max 5 (45 * trend_factor "上升")) ∧
    (TurntableAgent.generate_control_output 4 "高" "上升").frequency_3
      = (TurntableAgent.generate_control_output 4 "高" "上升").frequency_1 :=
  turntable_high_level_spec 4 "上升" (by norm_num) (by norm_num)

/-- Claim C2, counterexample: the claim places the boundary between the
normal and attention tiers at TMP 20, but the source only enters the
attention tier at TMP at least 0.8 times the warning threshold, 24 with
defaults; at TMP 22 the controller reports the normal tier with alarm
level zero where the claim demands attention with alarm level one. -/
theorem mbr_attention_boundary_counterexample :
    (MBRAgent.generate_control_output 22 18 50).fouling_status = "normal" ∧
    (MBRAgent.generate_control_output 22 18 50).fouling_status ≠ "attention" ∧
    (MBRAgent.generate_control_output 22 18 50).alarm_level = 0 := by
  refine ⟨?_, ?_, ?_⟩ <;>
    norm_num +decide [MBRAgent.generate_control_output, assess_fouling_status,
      calculate_control_params, tmp_warning, tmp_alarm]

/-- Claim C2, amended: the fouling tiers are TMP below 24 normal, 24 to
30 attention, 30 to 40 warning (backwash, flux 0.75 of design, aeration
times 1.2), at least 40 critical (flux zero, aeration times 1.5, chemical
clean), the alarm level equalling the tier index.  The only change forced
by the counterexample is the normal and attention boundary: normal runs
up to 0.8 times the warning threshold (24 by default), not up to 20, and
the attention band is 24 to 30 rather than 20 to 24. -/
theorem mbr_tier_spec (tmp flux aeration : ℚ) :
    (tmp < tmp_warning * 0.8 →
      MBRAgent.generate_control_output tmp flux aeration =
        { aeration_rate := aeration, flux_setpoint := design_flux
          backwash_needed := false, chemical_cleaning_needed := false
          alarm_level := 0, fouling_status := "normal"
          decision_reason := "膜运行正常", confidence := 0.85 }) ∧
    (tmp_warning * 0.8 ≤ tmp → tmp < tmp_warning →
      MBRAgent.generate_control_output tmp flux aeration =
        { aeration_rate := aeration * 1.1, flux_setpoint := design_flux * 0.9
          backwash_needed := false, chemical_cleaning_needed := false
          alarm_level := 1, fouling_status := "attention"
          decision_reason := "TMP接近预警值，需要关注", confidence := 0.85 }) ∧
    (tmp_warning ≤ tmp → tmp < tmp_alarm →
      MBRAgent.generate_control_output tmp flux aeration =
        { aeration_rate := aeration * 1.2, flux_setpoint := design_flux * 0.75
          backwash_needed := true, chemical_cleaning_needed := false
          alarm_level := 2, fouling_status := "warning"
          decision_reason := "TMP偏高，存在膜污染，需要增强反洗"
          confidence := 0.85 }) ∧
    (tmp_alarm ≤ tmp →
      MBRAgent.generate_control_output tmp flux aeration =
        { aeration_rate := aeration * 1.5, flux_setpoint := 0
          backwash_needed := true, chemical_cleaning_needed := true
          alarm_level := 3, fouling_status := "critical"
          decision_reason := "TMP严重超标，需要立即化学清洗"
          confidence := 0.90 }) := by
  have e1 : tmp_warning * 0.8 = 24 := by norm_num [tmp_warning]
  refine ⟨fun h1 => ?_, fun h1 h2 => ?_, fun h1 h2 => ?_, fun h1 => ?_⟩
  · rw [e1] at h1
    have c1 : ¬ tmp ≥ tmp_alarm := by norm_num [tmp_alarm]; linarith
    have c2 : ¬ tmp ≥ tmp_warning := by norm_num [tmp_warning]; linarith
    have c3 : ¬ tmp ≥ tmp_warning * 0.8 := by rw [e1]; linarith
    simp only [MBRAgent.generate_control_output, assess_fouling_status,
      calculate_control_params, if_neg c1, if_neg c2, if_neg c3]
    norm_num +decide [design_flux]
  · rw [e1] at h1
    have c1 : ¬ tmp ≥ tmp_alarm := by
      norm_num [tmp_alarm, tmp_warning] at h2 ⊢; linarith
    have c2 : ¬ tmp ≥ tmp_warning := by norm_num [tmp_warning] at h2 ⊢; linarith
    have c3 : tmp ≥ tmp_warning * 0.8 := by rw [e1]; linarith
    simp only [MBRAgent.generate_control_output, assess_fouling_status,
      calculate_control_params, if_neg c1, if_neg c2, if_pos c3]
    norm_num +decide [design_flux]
  · have c1 : ¬ tmp ≥ tmp_alarm := by
      norm_num [tmp_alarm] at h2 ⊢; linarith
    have c2 : tmp ≥ tmp_warning := h1
    simp only [MBRAgent.generate_control_output, assess_fouling_status,
      calculate_control_params, if_neg c1, if_pos c2]
    norm_num +decide [design_flux]
  · have c1 : tmp ≥ tmp_alarm := h1
    simp only [MBRAgent.generate_control_output, assess_fouling_status,
      calculate_control_params, if_pos c1]
    norm_num +decide [design_flux]

/-- Claim C2, witness: the amended tier theorem applied at the concrete
TMP values 25 (attention band) and 42 (critical band). -/
theorem mbr_tier_spec_witness :
    MBRAgent.generate_control_output 25 18 50 =
      { aeration_rate := 50 * 1.1, flux_setpoint := design_flux * 0.9
        backwash_needed := false, chemical_cleaning_needed := false
        alarm_level := 1, fouling_status := "attention"
        decision_reason := "TMP接近预警值，需要关注", confidence := 0.85 } :=
  (mbr_tier_spec 25 18 50).2.1 (by norm_num [tmp_warning]) (by norm_num [tmp_warning])

/-- Claim C10: in the attention band, TMP at least 0.8 times the warning
threshold (24 by default) and below the warning threshold (30), the
membrane reactor controller reports attention with alarm level one, no
backwash and no chemical cleaning, a flux setpoint of 0.9 times the
design flux (18 with the default design flux 20), and aeration 1.1 times
the current aeration input. -/
theorem mbr_attention_actuation_spec (tmp flux aeration : ℚ)
    (h1 : tmp_warning * 0.8 ≤ tmp) (h2 : tmp < tmp_warning) :
    (MBRAgent.generate_control_output tmp flux aeration).fouling_status
      = "attention" ∧
    (MBRAgent.generate_control_output tmp flux aeration).alarm_level = 1 ∧
    (MBRAgent.generate_control_output tmp flux aeration).backwash_needed
      = false ∧
    (MBRAgent.generate_control_output tmp flux aeration).chemical_cleaning_needed
      = false ∧
    (MBRAgent.generate_control_output tmp flux aeration).flux_setpoint
      = design_flux * 0.9 ∧
    (MBRAgent.generate_control_output tmp flux aeration).flux_setpoint = 18 ∧
    (MBRAgent.generate_control_output tmp flux aeration).aeration_rate
      = aeration * 1.1 := by
  have c1 : ¬ tmp ≥ tmp_alarm := by
    norm_num [tmp_alarm, tmp_warning] at h2 ⊢; linarith
  have c2 : ¬ tmp ≥ tmp_warning := by norm_num [tmp_warning] at h2 ⊢; linarith
  have c3 : tmp ≥ tmp_warning * 0.8 := h1
  refine ⟨?_, ?_, ?_, ?_, ?_, ?_, ?_⟩ <;>
    simp only [MBRAgent.generate_control_output, assess_fouling_status,
      calculate_control_params, if_neg c1, if_neg c2, if_pos c3] <;>
    norm_num +decide [design_flux]

/-- Claim C10, witness: the attention actuation theorem applied at the
concrete TMP 25 with flux 18 and aeration 50. -/
theorem mbr_attention_actuation_spec_witness :
    (MBRAgent.generate_control_output 25 18 50).fouling_status
      = "attention" ∧
    (MBRAgent.generate_control_output 25 18 50).alarm_level = 1 ∧
    (MBRAgent.generate_control_output 25 18 50).backwash_needed = false ∧
    (MBRAgent.generate_control_output 25 18 50).chemical_cleaning_needed
      = false ∧
    (MBRAgent.generate_control_output 25 18 50).flux_setpoint
      = design_flux * 0.9 ∧
    (MBRAgent.generate_control_output 25 18 50).flux_setpoint = 18 ∧
    (MBRAgent.generate_control_output 25 18 50).aeration_rate = 50 * 1.1 :=
  mbr_attention_actuation_spec 25 18 50 (by norm_num [tmp_warning])
    (by norm_num [tmp_warning])

/-- Claim C3: the regeneration controller applies the first matching rule
of the ordered list (efficiency below 60 or removal below 40 gives
intensive; efficiency below 80 or removal below 60 gives normal; hours
above 720 gives periodic normal; hours above 0.8 times 720 gives energy
saving; otherwise no regeneration and mode standby), and the three
concrete evaluations of the claim hold with the removal rate at its
default 70. -/
theorem regeneration_decision_order_spec (eff removal hours : ℚ) :
    (eff < 60 ∨ removal < 40 →
      (RegenerationAgent.generate_control_output eff removal hours).regeneration_needed
          = true ∧
      (RegenerationAgent.generate_control_output eff removal hours).regeneration_mode
          = "intensive") ∧
    (¬(eff < 60 ∨ removal < 40) → (eff < 80 ∨ removal < 60) →
      (RegenerationAgent.generate_control_output eff removal hours).regeneration_needed
          = true ∧
      (RegenerationAgent.generate_control_output eff removal hours).regeneration_mode
          = "normal") ∧
    (¬(eff < 60 ∨ removal < 40) → ¬(eff < 80 ∨ removal < 60) → hours > 720 →
      (RegenerationAgent.generate_control_output eff removal hours).regeneration_needed
          = true ∧
      (RegenerationAgent.generate_control_output eff removal hours).regeneration_mode
          = "normal") ∧
    (¬(eff < 60 ∨ removal < 40) → ¬(eff < 80 ∨ removal < 60) →
        ¬ hours > 720 → hours > 720 * 0.8 →
      (RegenerationAgent.generate_control_output eff removal hours).regeneration_needed
          = true ∧
      (RegenerationAgent.generate_control_output eff removal hours).regeneration_mode
          = "energy_saving") ∧
    (¬(eff < 60 ∨ removal < 40) → ¬(eff < 80 ∨ removal < 60) →
        ¬ hours > 720 → ¬ hours > 720 * 0.8 →
      (RegenerationAgent.generate_control_output eff removal hours).regeneration_needed
          = false ∧
      (RegenerationAgent.generate_control_output eff removal hours).regeneration_mode
          = "standby") ∧
    (RegenerationAgent.generate_control_output 90 70 200).regeneration_needed
        = false ∧
    (RegenerationAgent.generate_control_output 70 70 600).regeneration_needed
        = true ∧
    (RegenerationAgent.generate_control_output 70 70 600).regeneration_mode
        = "normal" ∧
    (RegenerationAgent.generate_control_output 50 70 200).regeneration_mode
        = "intensive" := by
  refine ⟨fun c1 => ?_, fun c1 c2 => ?_, fun c1 c2 c3 => ?_,
    fun c1 c2 c3 c4 => ?_, fun c1 c2 c3 c4 => ?_, ?_, ?_, ?_, ?_⟩
  · simp only [RegenerationAgent.generate_control_output,
      assess_regeneration_need, if_pos c1]
    norm_num +decide
  · simp only [RegenerationAgent.generate_control_output,
      assess_regeneration_need, if_neg c1, if_pos c2]
    norm_num +decide
  · simp only [RegenerationAgent.generate_control_output,
      assess_regeneration_need, if_neg c1, if_neg c2, if_pos c3]
    norm_num +decide
  · simp only [RegenerationAgent.generate_control_output,
      assess_regeneration_need, if_neg c1, if_neg c2, if_neg c3, if_pos c4]
    norm_num +decide
  · simp only [RegenerationAgent.generate_control_output,
      assess_regeneration_need, if_neg c1, if_neg c2, if_neg c3, if_neg c4]
    norm_num +decide
  · norm_num +decide [RegenerationAgent.generate_control_output,
      assess_regeneration_need]
  · norm_num +decide [RegenerationAgent.generate_control_output,
      assess_regeneration_need]
  · norm_num +decide [RegenerationAgent.generate_control_output,
      assess_regeneration_need]
  · norm_num +decide [RegenerationAgent.generate_control_output,
      assess_regeneration_need]

/-- Claim C3, witness: the decision-order theorem applied at the
concrete input efficiency 75, removal 70, hours 600, which falls through
the intensive rule into the normal rule. -/
theorem regeneration_decision_order_spec_witness :
    (RegenerationAgent.generate_control_output 75 70 600).regeneration_needed
        = true ∧
    (RegenerationAgent.generate_control_output 75 70 600).regeneration_mode
        = "normal" :=
  (regeneration_decision_order_spec 75 70 600).2.1 (by norm_num)
    (Or.inl (by norm_num))

/-- Claim C7, counterexample: the claim describes the TMP bands with
inclusive lower bounds (TMP at least 40 deducts 35), but the source
compares strictly, so at TMP exactly 40 only the 30 to 40 band fires and
20 is deducted: the score is 80, not the 65 the claim demands. -/
theorem mbr_subsystem_boundary_counterexample :
    (evaluate_mbr_subsystem 40 18 "normal").score = 80 ∧
    (evaluate_mbr_subsystem 40 18 "normal").score ≠ 100 - 35 := by
  constructor <;> norm_num +decide [evaluate_mbr_subsystem]

/-- Total deduction of the MBR subsystem score as worded by the amended
claim C7: mutually exclusive TMP bands with strict lower bounds (above
40 deducts 35, above 30 up to 40 deducts 20, above 25 up to 30 deducts
10), flux bands below 10 (25) and from 10 up to below 15 (15), and
fouling status critical (30) or warning (15).  Written from the claim
wording, to be compared with the embedding of the source. -/
def mbr_score_deduction_claim (tmp flux : ℚ) (fouling_status : String) : ℚ :=
  (if 40 < tmp then 35 else 0) +
  (if 30 < tmp ∧ tmp ≤ 40 then 20 else 0) +
  (if 25 < tmp ∧ tmp ≤ 30 then 10 else 0) +
  (if flux < 10 then 25 else 0) +
  (if 10 ≤ flux ∧ flux < 15 then 15 else 0) +
  (if fouling_status = "critical" then 30 else 0) +
  (if fouling_status = "warning" ∧ fouling_status ≠ "critical" then 15 else 0)

/-- The elif chain over TMP of the source equals the sum of the three
mutually exclusive strict bands of the amended claim. -/
theorem mbr_tmp_deduction_eq (tmp : ℚ) :
    (if tmp > 40 then (35 : ℚ) else if tmp > 30 then 20
        else if tmp > 25 then 10 else 0)
      = (if 40 < tmp then (35 : ℚ) else 0)
        + (if 30 < tmp ∧ tmp ≤ 40 then 20 else 0)
        + (if 25 < tmp ∧ tmp ≤ 30 then 10 else 0) := by
  rcases le_or_lt tmp 25 with h1 | h1
  · rw [if_neg (by linarith : ¬ tmp > 40), if_neg (by linarith : ¬ tmp > 30),
      if_neg (by linarith : ¬ tmp > 25), if_neg (by linarith : ¬ 40 < tmp),
      if_neg (by rintro ⟨h, _⟩; linarith), if_neg (by rintro ⟨h, _⟩; linarith)]
    ring
  rcases le_or_lt tmp 30 with h2 | h2
  · rw [if_neg (by linarith : ¬ tmp > 40), if_neg (by linarith : ¬ tmp > 30),
      if_pos h1, if_neg (by linarith : ¬ 40 < tmp),
      if_neg (by rintro ⟨h, _⟩; linarith), if_pos ⟨h1, h2⟩]
    ring
  rcases le_or_lt tmp 40 with h3 | h3
  · rw [if_neg (by linarith : ¬ tmp > 40), if_pos h2,
      if_neg (by linarith : ¬ 40 < tmp), if_pos ⟨h2, h3⟩,
      if_neg (by rintro ⟨_, h⟩; linarith)]
    ring
  · rw [if_pos h3, if_pos h3, if_neg (by rintro ⟨_, h⟩; linarith),
      if_neg (by rintro ⟨_, h⟩; linarith)]
    ring

/-- The elif chain over flux of the source equals the sum of the two
mutually exclusive claim bands. -/
theorem mbr_flux_deduction_eq (flux : ℚ) :
    (if flux < 10 then (25 : ℚ) else if flux < 15 then 15 else 0)
      = (if flux < 10 then (25 : ℚ) else 0)
        + (if 10 ≤ flux ∧ flux < 15 then 15 else 0) := by
  rcases lt_or_le flux 10 with h1 | h1
  · rw [if_pos h1, if_pos h1, if_neg (by rintro ⟨h, _⟩; linarith)]
    ring
  rcases lt_or_le flux 15 with h2 | h2
  · rw [if_neg (by linarith : ¬ flux < 10), if_pos h2,
      if_neg (by linarith : ¬ flux < 10), if_pos ⟨h1, h2⟩]
    ring
  · rw [if_neg (by linarith : ¬ flux < 10), if_neg (by linarith : ¬ flux < 15),
      if_neg (by linarith : ¬ flux < 10), if_neg (by rintro ⟨_, h⟩; linarith)]
    ring

/-- The elif chain over the fouling status string of the source equals
the sum of the two mutually exclusive claim bands. -/
theorem mbr_fouling_deduction_eq (fouling_status : String) :
    (if fouling_status = "critical" then (30 : ℚ)
        else if fouling_status = "warning" then 15 else 0)
      = (if fouling_status = "critical" then (30 : ℚ) else 0)
        + (if fouling_status = "warning" ∧ fouling_status ≠ "critical"
            then 15 else 0) := by
  rcases eq_or_ne fouling_status "critical" with h | h
  · simp +decide [h]
  rcases eq_or_ne fouling_status "warning" with h2 | h2 <;> simp [h, h2]

/-- Claim C7, amended: the MBR subsystem score of the diagnostic scorer
starts at 100, subtracts the band deductions of
mbr_score_deduction_claim (the bands of the original claim with the
boundaries made strict as the counterexample forces: deductions fire at
TMP strictly above 40, 30 and 25 rather than at the bounds), and clamps
the result at zero. -/
theorem mbr_subsystem_score_spec (tmp flux : ℚ) (fouling_status : String) :
    (evaluate_mbr_subsystem tmp flux fouling_status).score =
      max 0 (100 - mbr_score_deduction_claim tmp flux fouling_status) ∧
    0 ≤ (evaluate_mbr_subsystem tmp flux fouling_status).score := by
  constructor
  · simp only [evaluate_mbr_subsystem, mbr_score_deduction_claim]
    rw [show (100.0 : ℚ) = 100 by norm_num]
    congr 1
    rw [mbr_tmp_deduction_eq, mbr_flux_deduction_eq, mbr_fouling_deduction_eq]
    ring
  · simp only [evaluate_mbr_subsystem]
    exact le_max_left _ _

/-- The toxicity subsystem score lies between 0 and 100: the base is 100,
the deductions are nonnegative and the clamp keeps the score
nonnegative. -/
theorem evaluate_toxicity_subsystem_score_bounds (t c p : ℚ) :
    0 ≤ (evaluate_toxicity_subsystem t c p).score ∧
    (evaluate_toxicity_subsystem t c p).score ≤ 100 := by
  simp only [evaluate_toxicity_subsystem]
  refine ⟨le_max_left _ _, max_le (by norm_num) ?_⟩
  split_ifs <;> norm_num

/-- The turntable subsystem score lies between 0 and 100. -/
theorem evaluate_turntable_subsystem_score_bounds (f r : ℚ) (s : Bool) :
    0 ≤ (evaluate_turntable_subsystem f r s).score ∧
    (evaluate_turntable_subsystem f r s).score ≤ 100 := by
  simp only [evaluate_turntable_subsystem]
  refine ⟨le_max_left _ _, max_le (by norm_num) ?_⟩
  split_ifs <;> norm_num

/-- The MBR subsystem score lies between 0 and 100. -/
theorem evaluate_mbr_subsystem_score_bounds (tmp flux : ℚ) (f : String) :
    0 ≤ (evaluate_mbr_subsystem tmp flux f).score ∧
    (evaluate_mbr_subsystem tmp flux f).score ≤ 100 := by
  simp only [evaluate_mbr_subsystem]
  refine ⟨le_max_left _ _, max_le (by norm_num) ?_⟩
  split_ifs <;> norm_num

/-- The regeneration subsystem score lies between 0 and 100. -/
theorem evaluate_regeneration_subsystem_score_bounds (e : ℚ) (n : Bool) :
    0 ≤ (evaluate_regeneration_subsystem e n).score ∧
    (evaluate_regeneration_subsystem e n).score ≤ 100 := by
  simp only [evaluate_regeneration_subsystem]
  refine ⟨le_max_left _ _, max_le (by norm_num) ?_⟩
  split_ifs <;> norm_num

/-- Claim C8: for every input combination, the diagnostic report overall
score equals the arithmetic mean of the four subsystem scores (exactly,
hence within the claimed tolerance of one millionth) and lies within 0
and 100. -/
theorem diagnostic_overall_score_spec
    (toxicity confidence prediction_accuracy turntable_frequency
      turntable_removal_rate : ℚ) (turntable_standby : Bool)
    (mbr_tmp mbr_flux : ℚ) (mbr_fouling : String) (carbon_efficiency : ℚ)
    (need_regeneration : Bool) (rep : DiagnosticReport)
    (hrep : rep = DiagnosticAgent.generate_diagnostic_report toxicity
      confidence prediction_accuracy turntable_frequency
      turntable_removal_rate turntable_standby mbr_tmp mbr_flux mbr_fouling
      carbon_efficiency need_regeneration) :
    rep.overall_score = (rep.toxicity_status.score + rep.turntable_status.score
      + rep.mbr_status.score + rep.regeneration_status.score) / 4 ∧
    0 ≤ rep.overall_score ∧ rep.overall_score ≤ 100 := by
  subst hrep
  have h1 := evaluate_toxicity_subsystem_score_bounds toxicity confidence
    prediction_accuracy
  have h2 := evaluate_turntable_subsystem_score_bounds turntable_frequency
    turntable_removal_rate turntable_standby
  have h3 := evaluate_mbr_subsystem_score_bounds mbr_tmp mbr_flux mbr_fouling
  have h4 := evaluate_regeneration_subsystem_score_bounds carbon_efficiency
    need_regeneration
  refine ⟨rfl, ?_, ?_⟩ <;>
    · simp only [DiagnosticAgent.generate_diagnostic_report]
      linarith [h1.1, h1.2, h2.1, h2.2, h3.1, h3.2, h4.1, h4.2]

/-- Claim C8, witness: the overall score theorem applied at the default
inputs of generate_diagnostic_report. -/
theorem diagnostic_overall_score_spec_witness :
    (DiagnosticAgent.generate_diagnostic_report 2 0.85 80 25 70 false 20 18
        "normal" 85 false).overall_score =
      ((DiagnosticAgent.generate_diagnostic_report 2 0.85 80 25 70 false 20 18
        "normal" 85 false).toxicity_status.score
      + (DiagnosticAgent.generate_diagnostic_report 2 0.85 80 25 70 false 20 18
        "normal" 85 false).turntable_status.score
      + (DiagnosticAgent.generate_diagnostic_report 2 0.85 80 25 70 false 20 18
        "normal" 85 false).mbr_status.score
      + (DiagnosticAgent.generate_diagnostic_report 2 0.85 80 25 70 false 20 18
        "normal" 85 false).regeneration_status.score) / 4 ∧
    0 ≤ (DiagnosticAgent.generate_diagnostic_report 2 0.85 80 25 70 false 20 18
        "normal" 85 false).overall_score ∧
    (DiagnosticAgent.generate_diagnostic_report 2 0.85 80 25 70 false 20 18
        "normal" 85 false).overall_score ≤ 100 :=
  diagnostic_overall_score_spec 2 0.85 80 25 70 false 20 18 "normal" 85 false
    _ rfl

/-- Appending to a bounded deque never leaves more than maxlen
elements. -/
theorem deque_append_length_le {α : Type} (maxlen : ℕ) (xs : List α) (x : α) :
    (deque_append maxlen xs x).length ≤ maxlen := by
  simp only [deque_append]
  split_ifs with h
  · exact h
  · simp only [List.length_drop]
    omega

/-- Appending to a full bounded deque drops exactly the oldest element. -/
theorem deque_append_full {α : Type} (maxlen : ℕ) (xs : List α) (x : α)
    (hfull : xs.length = maxlen) (hpos : 0 < maxlen) :
    deque_append maxlen xs x = xs.tail ++ [x] := by
  have hlen : (xs ++ [x]).length = maxlen + 1 := by simp [hfull]
  simp only [deque_append]
  rw [if_neg (by rw [hlen]; omega), hlen,
    show maxlen + 1 - maxlen = 1 by omega]
  cases xs with
  | nil => simp at hfull; omega
  | cons a tl => simp

/-- Looking a key up right after assigning it returns the assigned
record. -/
theorem records_lookup_set (recs : List (String × LearningRecord))
    (key : String) (v : LearningRecord) :
    records_lookup (records_set recs key v) key = some v := by
  induction recs with
  | nil => simp [records_set, records_lookup]
  | cons hd tl ih =>
    obtain ⟨k, w⟩ := hd
    by_cases h : k = key
    · simp [records_set, h, records_lookup]
    · simp [records_set, h, records_lookup, ih]

/-- Claim C6: recording feedback keeps the history length within the
configured capacity (evicting the oldest entry when the history is
full), and for a scenario key that already has a learning record it
applies the incremental mean to the success rate, bumps the sample
count, and replaces the optimal parameters with the parameters of the
feedback exactly when its effectiveness exceeds 0.8; recording
effectiveness 0.6 then 1.0 for the same key yields success rate
exactly 0.8. -/
theorem record_feedback_spec (s : FeedbackAgentState) (fb : ControlFeedback)
    (r : LearningRecord)
    (hr : records_lookup s.learning_records (scenario_key fb) = some r) :
    (FeedbackAgent.record_feedback s fb).feedback_history.length
      ≤ s.history_size ∧
    records_lookup (FeedbackAgent.record_feedback s fb).learning_records
        (scenario_key fb) =
      some { scenario := r.scenario
             optimal_parameters :=
               if fb.effectiveness > 0.8 then fb.parameters
               else r.optimal_parameters
             success_rate :=
               (r.success_rate * r.sample_count + fb.effectiveness)
                 / (r.sample_count + 1)
             sample_count := r.sample_count + 1
             last_updated := fb.timestamp } ∧
    (s.feedback_history.length = s.history_size → 0 < s.history_size →
      (FeedbackAgent.record_feedback s fb).feedback_history
        = s.feedback_history.tail ++ [fb]) ∧
    records_lookup
      (FeedbackAgent.record_feedback
        (FeedbackAgent.record_feedback (FeedbackAgentState.init 100)
          ⟨"a", "b", "", "", 0.6, [("p", 30)], "t1"⟩)
        ⟨"a", "b", "", "", 1, [("p", 30)], "t2"⟩).learning_records
      ("a" ++ "_" ++ "b")
      = some ⟨"a_b", [("p", 30)], 0.8, 2, "t2"⟩ := by
  refine ⟨deque_append_length_le _ _ _, ?_, ?_, ?_⟩
  · simp only [FeedbackAgent.record_feedback, update_learning_record, hr]
    exact records_lookup_set _ _ _
  · intro hfull hpos
    simp only [FeedbackAgent.record_feedback]
    exact deque_append_full _ _ _ hfull hpos
  · norm_num +decide [FeedbackAgent.record_feedback, update_learning_record,
      records_lookup, records_set, scenario_key, FeedbackAgentState.init,
      deque_append]

/-- Claim C6, witness: the record_feedback theorem applied to a concrete
state holding one learning record for the key of the incoming
feedback. -/
theorem record_feedback_spec_witness :
    (FeedbackAgent.record_feedback
      ⟨2, [], [("a_b", ⟨"a_b", [], 0.5, 1, "t0"⟩)]⟩
      ⟨"a", "b", "x", "y", 1, [("p", 2)], "t1"⟩).feedback_history.length
        ≤ 2 :=
  (record_feedback_spec ⟨2, [], [("a_b", ⟨"a_b", [], 0.5, 1, "t0"⟩)]⟩
    ⟨"a", "b", "x", "y", 1, [("p", 2)], "t1"⟩ ⟨"a_b", [], 0.5, 1, "t0"⟩
    (by simp +decide [records_lookup, scenario_key])).1

/-- Claim C9, counterexample: a failing turntable controller sub-step is
not caught at the orchestrator boundary; the whole request fails with
the propagated error instead of completing with an unavailable marker
for the turntable entry. -/
theorem orchestrator_substep_failure_counterexample :
    MainOrchestrator.run Intent.control_turntable ⟨"success", "ok"⟩
      (Except.error "知识库查询失败")
      (Except.ok (MBRAgent.generate_control_output 20 18 50))
      (Except.ok (RegenerationAgent.generate_control_output 85 70 500))
      (Except.ok (DiagnosticAgent.generate_diagnostic_report 2 0.85 80 25 70
        false 20 18 "normal" 85 false))
      ⟨"success", "ok"⟩
      = Except.error "知识库查询失败" := by
  rfl

/-- Claim C9, amended: the orchestrator completes a request exactly when
every controller and scorer sub-step the intent schedules succeeds — a
single failing controller or scorer invocation aborts the whole request,
since the source wraps none of them in try and except — while the
LLM-backed toxicity and feedback sub-steps, which catch internally and
always return a status record, are passed into the completed response
unchanged (with no unavailable marker for anything). -/
theorem orchestrator_run_ok_spec (intent : Intent) (tox : AgentRunResult)
    (tt : Except String TurntableControlOutput)
    (mbr : Except String MBRControlOutput)
    (regen : Except String RegenerationControlOutput)
    (diag : Except String DiagnosticReport) (fb : AgentRunResult) :
    ((∃ r, MainOrchestrator.run intent tox tt mbr regen diag fb
        = Except.ok r) ↔
      ((needs_turntable intent = true → ∃ v, tt = Except.ok v) ∧
       (needs_mbr intent = true → ∃ v, mbr = Except.ok v) ∧
       (needs_regeneration intent = true → ∃ v, regen = Except.ok v) ∧
       (needs_diagnostic intent = true → ∃ v, diag = Except.ok v))) ∧
    (∀ r, MainOrchestrator.run intent tox tt mbr regen diag fb
        = Except.ok r →
      r.toxicity = (if needs_toxicity intent then some tox else none) ∧
      r.feedback = (if needs_feedback intent then some fb else none)) := by
  cases intent <;> cases tt <;> cases mbr <;> cases regen <;> cases diag <;>
    simp [MainOrchestrator.run, step_result, needs_turntable, needs_mbr,
      needs_regeneration, needs_diagnostic, needs_toxicity, needs_feedback,
      Except.map, Except.bind]

/-- Claim C9, witness: the amended theorem applied at the full-analysis
intent with all controller and scorer sub-steps succeeding shows the
request completing even though the toxicity sub-step reported an internal
error status. -/
theorem orchestrator_run_ok_spec_witness :
    ∃ r, MainOrchestrator.run Intent.full_analysis ⟨"error", "LLM调用失败"⟩
      (Except.ok (TurntableAgent.generate_control_output 2 "中" "稳定"))
      (Except.ok (MBRAgent.generate_control_output 20 18 50))
      (Except.ok (RegenerationAgent.generate_control_output 85 70 500))
      (Except.ok (DiagnosticAgent.generate_diagnostic_report 2 0.85 80 25 70
        false 20 18 "normal" 85 false))
      ⟨"success", "已记录"⟩
      = Except.ok r :=
  (orchestrator_run_ok_spec Intent.full_analysis ⟨"error", "LLM调用失败"⟩
      (Except.ok (TurntableAgent.generate_control_output 2 "中" "稳定"))
      (Except.ok (MBRAgent.generate_control_output 20 18 50))
      (Except.ok (RegenerationAgent.generate_control_output 85 70 500))
      (Except.ok (DiagnosticAgent.generate_diagnostic_report 2 0.85 80 25 70
        false 20 18 "normal" 85 false))
      ⟨"success", "已记录"⟩).1.mpr
    ⟨fun _ => ⟨_, rfl⟩, fun _ => ⟨_, rfl⟩, fun _ => ⟨_, rfl⟩, fun _ => ⟨_, rfl⟩⟩

end Aquamind
